import Mathlib

/-!
# Verification of the Black-Scholes / PINN option calculator

Shallow embedding of the analytic pricer (`src/black_scholes.py`) and of the
physics-informed neural network machinery (`src/modelo_pinn.py`) of the
repository, together with proofs of the specified properties: put-call parity,
the closed-form pricing formulas, parameter validation, the price-surface
computation and its scratch mutation of instance state, monotonicity of the
prices in spot and volatility, non-negativity of the PINN loss components and
of the network output, and the structure of the training loop.

Python floats are modelled by exact real numbers; `scipy.stats.norm.cdf` is
modelled by the integral of the standard normal density.
-/

open MeasureTheory intervalIntegral Set

noncomputable section

namespace Calculadora

/-! ## The standard normal distribution (`scipy.stats.norm`) -/

/-- `norm.pdf`: the density of the standard normal distribution. -/
def norm_pdf (x : ℝ) : ℝ := (Real.sqrt (2 * Real.pi))⁻¹ * Real.exp (-x ^ 2 / 2)

/-- `norm.cdf`: the cumulative distribution function of the standard normal. -/
def norm_cdf (x : ℝ) : ℝ := ∫ t in Iic x, norm_pdf t

lemma sqrt_two_pi_pos : 0 < Real.sqrt (2 * Real.pi) :=
  Real.sqrt_pos.mpr (by positivity)

lemma norm_pdf_pos (x : ℝ) : 0 < norm_pdf x :=
  mul_pos (inv_pos.mpr sqrt_two_pi_pos) (Real.exp_pos _)

lemma norm_pdf_even (x : ℝ) : norm_pdf (-x) = norm_pdf x := by
  unfold norm_pdf; rw [neg_pow]; norm_num

lemma continuous_norm_pdf : Continuous norm_pdf := by
  unfold norm_pdf
  exact continuous_const.mul (Real.continuous_exp.comp (by fun_prop))

lemma norm_pdf_eq_gauss :
    norm_pdf = fun x : ℝ => (Real.sqrt (2 * Real.pi))⁻¹ * Real.exp (-(1/2 : ℝ) * x ^ 2) := by
  funext x
  unfold norm_pdf
  congr 2
  ring

lemma integrable_norm_pdf : Integrable norm_pdf := by
  rw [norm_pdf_eq_gauss]
  exact (integrable_exp_neg_mul_sq (by norm_num : (0:ℝ) < 1/2)).const_mul _

lemma integral_norm_pdf : ∫ x : ℝ, norm_pdf x = 1 := by
  have h1 : ∫ x : ℝ, norm_pdf x
      = ∫ x : ℝ, (Real.sqrt (2 * Real.pi))⁻¹ * Real.exp (-(1/2 : ℝ) * x ^ 2) := by
    congr 1
    funext x
    rw [norm_pdf_eq_gauss]
  rw [h1, MeasureTheory.integral_mul_left, integral_gaussian (1/2 : ℝ),
    show Real.pi / (1/2 : ℝ) = 2 * Real.pi by ring]
  exact inv_mul_cancel₀ (ne_of_gt sqrt_two_pi_pos)

lemma norm_cdf_neg_eq (x : ℝ) : norm_cdf (-x) = ∫ t in Ioi x, norm_pdf t := by
  unfold norm_cdf
  have h : (∫ t in Iic (-x), norm_pdf (-t)) = ∫ t in Ioi x, norm_pdf t := by
    simpa using integral_comp_neg_Iic (-x) norm_pdf
  rw [← h]
  congr 1
  funext t
  rw [norm_pdf_even]

/-- The two tails of the normal CDF sum to the total mass `1`. -/
lemma norm_cdf_add_neg (x : ℝ) : norm_cdf x + norm_cdf (-x) = 1 := by
  rw [norm_cdf_neg_eq]
  unfold norm_cdf
  rw [integral_Iic_add_Ioi integrable_norm_pdf.integrableOn integrable_norm_pdf.integrableOn,
    integral_norm_pdf]

lemma norm_cdf_strictMono : StrictMono norm_cdf := by
  intro a b hab
  have h := integral_Iic_sub_Iic (μ := volume) (f := norm_pdf) (a := a) (b := b)
    integrable_norm_pdf.integrableOn integrable_norm_pdf.integrableOn
  have hpos : 0 < ∫ t in a..b, norm_pdf t :=
    intervalIntegral_pos_of_pos integrable_norm_pdf.intervalIntegrable
      (fun t => norm_pdf_pos t) hab
  unfold norm_cdf
  nlinarith [h, hpos]

lemma norm_cdf_nonneg (x : ℝ) : 0 ≤ norm_cdf x :=
  setIntegral_nonneg measurableSet_Iic (fun t _ => (norm_pdf_pos t).le)

lemma norm_cdf_pos (x : ℝ) : 0 < norm_cdf x :=
  lt_of_le_of_lt (norm_cdf_nonneg (x - 1)) (norm_cdf_strictMono (by linarith))

lemma norm_cdf_lt_one (x : ℝ) : norm_cdf x < 1 := by
  have h := norm_cdf_add_neg x
  have := norm_cdf_pos (-x)
  linarith

/-- The normal CDF has the normal density as derivative everywhere. -/
lemma hasDerivAt_norm_cdf (x : ℝ) : HasDerivAt norm_cdf (norm_pdf x) x := by
  have hshape : norm_cdf = fun y => norm_cdf 0 + ∫ t in (0:ℝ)..y, norm_pdf t := by
    funext y
    have h := integral_Iic_sub_Iic (μ := volume) (f := norm_pdf) (a := (0:ℝ)) (b := y)
      integrable_norm_pdf.integrableOn integrable_norm_pdf.integrableOn
    unfold norm_cdf
    unfold norm_cdf at h
    linarith
  rw [hshape]
  have hd : HasDerivAt (fun y => ∫ t in (0:ℝ)..y, norm_pdf t) (norm_pdf x) x := by
    refine integral_hasDerivAt_right integrable_norm_pdf.intervalIntegrable ?_
      continuous_norm_pdf.continuousAt
    exact continuous_norm_pdf.stronglyMeasurable.stronglyMeasurableAtFilter
  exact hd.const_add (norm_cdf 0)

/-! ## The analytic pricer `ModeloBlackScholes` (src/black_scholes.py)

The configured model parameters `(S, K, T, r, σ)` are modelled by the record
`Params`; the freshly constructed object (whose five fields are `None` until
`configurar_parametros` is called) is modelled by `ModeloInit` with `Option`
fields. -/

/-- The five instance fields of a configured `ModeloBlackScholes`. -/
@[ext]
structure Params where
  preco_ativo : ℝ
  preco_strike : ℝ
  tempo_maturidade : ℝ
  taxa_juros : ℝ
  volatilidade : ℝ

/-- The instance fields of a `ModeloBlackScholes` as set by `__init__`
(every field starts as `None`). -/
structure ModeloInit where
  preco_ativo : Option ℝ
  preco_strike : Option ℝ
  tempo_maturidade : Option ℝ
  taxa_juros : Option ℝ
  volatilidade : Option ℝ

/-- `ModeloBlackScholes.configurar_parametros`: assigns all five fields, then
validates them in order, raising `ValueError` (modelled by `some message`)
at the first field among `S`, `K`, `T`, `σ` that is not positive. -/
def configurar_parametros (_m : ModeloInit) (preco_ativo preco_strike tempo_maturidade
    taxa_juros volatilidade : ℝ) : ModeloInit × Option String :=
  let m' : ModeloInit :=
    ⟨some preco_ativo, some preco_strike, some tempo_maturidade,
      some taxa_juros, some volatilidade⟩
  if preco_ativo ≤ 0 then (m', some "Preço do ativo deve ser positivo")
  else if preco_strike ≤ 0 then (m', some "Preço strike deve ser positivo")
  else if tempo_maturidade ≤ 0 then (m', some "Tempo até maturidade deve ser positivo")
  else if volatilidade ≤ 0 then (m', some "Volatilidade deve ser positiva")
  else (m', none)

/-- `ModeloBlackScholes.calcular_d1_d2`. -/
def calcular_d1_d2 (p : Params) : ℝ × ℝ :=
  let S := p.preco_ativo
  let K := p.preco_strike
  let T := p.tempo_maturidade
  let r := p.taxa_juros
  let sigma := p.volatilidade
  let d1 := (Real.log (S / K) + (r + 0.5 * sigma ^ 2) * T) / (sigma * Real.sqrt T)
  (d1, d1 - sigma * Real.sqrt T)

/-- `ModeloBlackScholes.calcular_preco_call`. -/
def calcular_preco_call (p : Params) : ℝ :=
  p.preco_ativo * norm_cdf (calcular_d1_d2 p).1 -
    p.preco_strike * Real.exp (-(p.taxa_juros * p.tempo_maturidade)) *
      norm_cdf (calcular_d1_d2 p).2

/-- `ModeloBlackScholes.calcular_preco_put`. -/
def calcular_preco_put (p : Params) : ℝ :=
  p.preco_strike * Real.exp (-(p.taxa_juros * p.tempo_maturidade)) *
      norm_cdf (-(calcular_d1_d2 p).2) -
    p.preco_ativo * norm_cdf (-(calcular_d1_d2 p).1)

/-- `ModeloBlackScholes.calcular_vega` (reported per 1% volatility change). -/
def calcular_vega (p : Params) : ℝ :=
  p.preco_ativo * norm_pdf (calcular_d1_d2 p).1 * Real.sqrt p.tempo_maturidade / 100

/-- `ModeloBlackScholes.validar_paridade_put_call`. -/
def validar_paridade_put_call (p : Params) : ℝ :=
  |calcular_preco_call p - calcular_preco_put p -
    (p.preco_ativo - p.preco_strike * Real.exp (-(p.taxa_juros * p.tempo_maturidade)))|

/-- The option kind argument `tipo_opcao` (`'call'` or `'put'`). -/
inductive TipoOpcao where
  | call : TipoOpcao
  | put : TipoOpcao
deriving DecidableEq

/-- The branch `if tipo_opcao.lower() == 'call' ... else ...` used to pick the
scalar pricing operation. -/
def precoPorTipo (tipo : TipoOpcao) (p : Params) : ℝ :=
  if tipo = TipoOpcao.call then calcular_preco_call p else calcular_preco_put p

/-- Inner loop of `calcular_superficie_precos` (over the spot grid): threads the
mutable instance fields, returning the row of prices, the list of instance
states right after each assignment to `self.preco_ativo`/`self.tempo_maturidade`,
and the final instance state. -/
def superficie_inner (p : Params) (t : ℝ) (precos_ativos : List ℝ) (tipo : TipoOpcao) :
    List ℝ × List Params × Params :=
  match precos_ativos with
  | [] => ([], [], p)
  | s :: resto =>
      let p1 : Params := { p with preco_ativo := s, tempo_maturidade := t }
      let v := precoPorTipo tipo p1
      let rest := superficie_inner p1 t resto tipo
      (v :: rest.1, p1 :: rest.2.1, rest.2.2)

/-- Outer loop of `calcular_superficie_precos` (over the maturity grid). -/
def superficie_outer (p : Params) (tempos precos_ativos : List ℝ) (tipo : TipoOpcao) :
    List (List ℝ) × List Params × Params :=
  match tempos with
  | [] => ([], [], p)
  | t :: resto =>
      let r1 := superficie_inner p t precos_ativos tipo
      let r2 := superficie_outer r1.2.2 resto precos_ativos tipo
      (r1.1 :: r2.1, r1.2.1 ++ r2.2.1, r2.2.2)

/-- `ModeloBlackScholes.calcular_superficie_precos`: saves `S` and `T`, runs the
two nested loops mutating the instance fields as scratch, and restores the two
saved fields at the end.  Returns the matrix, the trace of intermediate
instance states, and the final instance state. -/
def calcular_superficie_precos (p : Params) (tempos precos_ativos : List ℝ)
    (tipo : TipoOpcao) : List (List ℝ) × List Params × Params :=
  let S_original := p.preco_ativo
  let T_original := p.tempo_maturidade
  let r := superficie_outer p tempos precos_ativos tipo
  (r.1, r.2.1,
    { r.2.2 with preco_ativo := S_original, tempo_maturidade := T_original })

/-! ## The physics-informed neural network `RedeNeuralPINN` (src/modelo_pinn.py)

The Keras forward pass is modelled layer by layer: the normalisation `Lambda`
layer, dense layers with `tanh` activation, and the final width-one dense layer
with `softplus` activation.  Batches are modelled by lists; `tf.reduce_mean` by
`List.sum` divided by the length; the exact automatic derivatives produced by
`tf.GradientTape` by Mathlib's `deriv`. -/

/-- `softplus` activation: `log(1 + eˣ)`. -/
def softplus (x : ℝ) : ℝ := Real.log (1 + Real.exp x)

/-- The normalisation layer `Lambda(lambda x: 2.0 * (x - 0.0) / (1.0 - 0.0) - 1.0)`. -/
def normalizacao (x : List ℝ) : List ℝ :=
  x.map (fun v => 2.0 * (v - 0.0) / (1.0 - 0.0) - 1.0)

/-- One dense layer: each unit applies the activation to its weighted sum plus
bias.  `pesos` is the list of weight rows, `vies` the list of biases. -/
def dense (ativacao : ℝ → ℝ) (pesos : List (List ℝ)) (vies : List ℝ)
    (x : List ℝ) : List ℝ :=
  (pesos.zip vies).map
    (fun rb => ativacao (((rb.1.zip x).map (fun pq => pq.1 * pq.2)).sum + rb.2))

/-- The forward pass of `RedeNeuralPINN._construir_modelo`: normalisation of
the input `(S, t)`, the hidden `tanh` dense layers, then the final `Dense(1)`
layer with `softplus` activation producing the predicted price. -/
def modelo_forward (ocultas : List (List (List ℝ) × List ℝ))
    (pesos_saida : List ℝ) (vies_saida : ℝ) (s t : ℝ) : ℝ :=
  let x0 := normalizacao [s, t]
  let h := ocultas.foldl (fun x cp => dense Real.tanh cp.1 cp.2 x) x0
  softplus (((pesos_saida.zip h).map (fun pq => pq.1 * pq.2)).sum + vies_saida)

/-- `RedeNeuralPINN.prever`: broadcasts a scalar time over the spot batch and
evaluates the forward pass pointwise, returning the flat array of predictions. -/
def prever (ocultas : List (List (List ℝ) × List ℝ)) (pesos_saida : List ℝ)
    (vies_saida : ℝ) (S t : List ℝ) : List ℝ :=
  let t2 := if t.length = 1 ∧ 1 < S.length then List.replicate S.length (t.getD 0 0) else t
  (S.zip t2).map (fun q => modelo_forward ocultas pesos_saida vies_saida q.1 q.2)

/-- `tf.reduce_mean` on a batch. -/
def reduce_mean (l : List ℝ) : ℝ := l.sum / l.length

/-- `RedeNeuralPINN.calcular_derivadas`: the value of the model together with
its exact first derivatives in `t` and `S` and second derivative in `S`,
as computed by the nested `tf.GradientTape`s. -/
def calcular_derivadas (modelo : ℝ → ℝ → ℝ) (s t : ℝ) : ℝ × ℝ × ℝ × ℝ :=
  (modelo s t,
   deriv (fun u => modelo s u) t,
   deriv (fun u => modelo u t) s,
   deriv (fun u => deriv (fun w => modelo w t) u) s)

/-- `RedeNeuralPINN.calcular_perda_pde`: the mean squared Black-Scholes PDE
residual over the collocation batch. -/
def calcular_perda_pde (modelo : ℝ → ℝ → ℝ) (r sigma : ℝ) (S t : List ℝ) : ℝ :=
  reduce_mean ((S.zip t).map (fun q =>
    let d := calcular_derivadas modelo q.1 q.2
    (d.2.1 + 0.5 * sigma ^ 2 * q.1 ^ 2 * d.2.2.2 + r * q.1 * d.2.2.1 - r * d.1) ^ 2))

/-- `RedeNeuralPINN.calcular_perda`: the total weighted loss together with its
PDE, terminal (`ic`) and boundary (`bc`) components. -/
def calcular_perda (modelo : ℝ → ℝ → ℝ) (r sigma : ℝ)
    (S_colocacao t_colocacao S_inicial t_inicial V_inicial
     S_contorno_inf t_contorno_inf V_contorno_inf
     S_contorno_sup t_contorno_sup V_contorno_sup : List ℝ) : ℝ × ℝ × ℝ × ℝ :=
  let loss_pde := calcular_perda_pde modelo r sigma S_colocacao t_colocacao
  let loss_ic := reduce_mean (((S_inicial.zip t_inicial).zip V_inicial).map
    (fun q => (q.2 - modelo q.1.1 q.1.2) ^ 2))
  let loss_bc_inf := reduce_mean (((S_contorno_inf.zip t_contorno_inf).zip V_contorno_inf).map
    (fun q => (q.2 - modelo q.1.1 q.1.2) ^ 2))
  let loss_bc_sup := reduce_mean (((S_contorno_sup.zip t_contorno_sup).zip V_contorno_sup).map
    (fun q => (q.2 - modelo q.1.1 q.1.2) ^ 2))
  let loss_bc := loss_bc_inf + loss_bc_sup
  (loss_pde + 10.0 * loss_ic + 10.0 * loss_bc, loss_pde, loss_ic, loss_bc)

/-- The training data of `RedeNeuralPINN.gerar_dados_treinamento`. -/
structure DadosTreinamento where
  S_col : List ℝ
  t_col : List ℝ
  S_ic : List ℝ
  t_ic : List ℝ
  V_ic : List ℝ
  S_bc_inf : List ℝ
  t_bc_inf : List ℝ
  V_bc_inf : List ℝ
  S_bc_sup : List ℝ
  t_bc_sup : List ℝ
  V_bc_sup : List ℝ

/-- `RedeNeuralPINN.gerar_dados_treinamento`.  The five calls to
`tf.random.uniform` are modelled by the abstract sampler `uniforme`, applied to
the call index, the bounds and the requested length. -/
def gerar_dados_treinamento (uniforme : ℕ → ℝ → ℝ → ℕ → List ℝ)
    (K T r : ℝ) (N_colocacao N_borda : ℕ) (S_max : ℝ) : DadosTreinamento :=
  let S_col := uniforme 0 0.1 S_max N_colocacao
  let t_col := uniforme 1 0 T N_colocacao
  let S_ic := uniforme 2 0 S_max N_borda
  let t_ic := List.replicate N_borda T
  let V_ic := S_ic.map (fun s => max (s - K) 0)
  let S_bc_inf := List.replicate N_borda (0 : ℝ)
  let t_bc_inf := uniforme 3 0 T N_borda
  let V_bc_inf := List.replicate N_borda (0 : ℝ)
  let S_bc_sup := List.replicate N_borda S_max
  let t_bc_sup := uniforme 4 0 T N_borda
  let V_bc_sup := t_bc_sup.map (fun t => S_max - K * Real.exp (-(r * (T - t))))
  ⟨S_col, t_col, S_ic, t_ic, V_ic, S_bc_inf, t_bc_inf, V_bc_inf, S_bc_sup, t_bc_sup, V_bc_sup⟩

/-- The mutable training state of a `RedeNeuralPINN`: the model (weights plus
optimizer state, abstracted as `M`) and the four loss-history lists. -/
structure EstadoTreino (M : Type) where
  modelo : M
  historico_loss : List ℝ
  historico_loss_pde : List ℝ
  historico_loss_ic : List ℝ
  historico_loss_bc : List ℝ

/-- One iteration of the training loop body of `RedeNeuralPINN.treinar`:
a `passo_treinamento` optimizer step on the fixed dataset, plus the
every-tenth-epoch history logging. -/
def epoca_treino {M : Type} (passo : DadosTreinamento → M → M × ℝ × ℝ × ℝ × ℝ)
    (dados : DadosTreinamento) (st : EstadoTreino M) (epoca : ℕ) : EstadoTreino M :=
  let res := passo dados st.modelo
  if epoca % 10 = 0 then
    { modelo := res.1,
      historico_loss := st.historico_loss ++ [res.2.1],
      historico_loss_pde := st.historico_loss_pde ++ [res.2.2.1],
      historico_loss_ic := st.historico_loss_ic ++ [res.2.2.2.1],
      historico_loss_bc := st.historico_loss_bc ++ [res.2.2.2.2] }
  else { st with modelo := res.1 }

/-- `RedeNeuralPINN.treinar`: stores the parameters, sets `S_max = 4K`,
samples the training data once, then runs exactly `epocas` iterations of the
loop body on that fixed dataset.  The optimizer step is the abstract `passo`. -/
def treinar {M : Type} (passo : DadosTreinamento → M → M × ℝ × ℝ × ℝ × ℝ)
    (uniforme : ℕ → ℝ → ℝ → ℕ → List ℝ) (K T r _sigma : ℝ)
    (epocas N_colocacao N_borda : ℕ) (m0 : M) : EstadoTreino M :=
  let S_max := 4.0 * K
  let dados := gerar_dados_treinamento uniforme K T r N_colocacao N_borda S_max
  (List.range epocas).foldl (epoca_treino passo dados) ⟨m0, [], [], [], []⟩

/-! ## Helper lemmas -/

lemma list_getD_of_lt {α : Type} (l : List α) (d : α) (i : ℕ) (h : i < l.length) :
    l.getD i d = l[i] := by
  rw [List.getD_eq_getElem?_getD, List.getElem?_eq_getElem h]
  rfl

lemma list_getD_of_le {α : Type} (l : List α) (d : α) (i : ℕ) (h : l.length ≤ i) :
    l.getD i d = d := by
  rw [List.getD_eq_getElem?_getD, List.getElem?_eq_none h]
  rfl

/-- Exact put-call parity of the embedded pricing operations: it follows from
`Φ(x) + Φ(-x) = 1` alone, with no constraint on the parameters. -/
lemma paridade_exata (p : Params) :
    calcular_preco_call p - calcular_preco_put p =
      p.preco_ativo -
        p.preco_strike * Real.exp (-(p.taxa_juros * p.tempo_maturidade)) := by
  unfold calcular_preco_call calcular_preco_put
  have h1 := norm_cdf_add_neg (calcular_d1_d2 p).1
  have h2 := norm_cdf_add_neg (calcular_d1_d2 p).2
  linear_combination p.preco_ativo * h1 -
    p.preco_strike * Real.exp (-(p.taxa_juros * p.tempo_maturidade)) * h2

lemma superficie_inner_preserva (p : Params) (t : ℝ) (ps : List ℝ) (tipo : TipoOpcao) :
    (superficie_inner p t ps tipo).2.2.preco_strike = p.preco_strike ∧
    (superficie_inner p t ps tipo).2.2.taxa_juros = p.taxa_juros ∧
    (superficie_inner p t ps tipo).2.2.volatilidade = p.volatilidade := by
  induction ps generalizing p with
  | nil => exact ⟨rfl, rfl, rfl⟩
  | cons s resto ih =>
      simpa [superficie_inner] using ih { p with preco_ativo := s, tempo_maturidade := t }

lemma superficie_outer_preserva (p : Params) (tempos ps : List ℝ) (tipo : TipoOpcao) :
    (superficie_outer p tempos ps tipo).2.2.preco_strike = p.preco_strike ∧
    (superficie_outer p tempos ps tipo).2.2.taxa_juros = p.taxa_juros ∧
    (superficie_outer p tempos ps tipo).2.2.volatilidade = p.volatilidade := by
  induction tempos generalizing p with
  | nil => exact ⟨rfl, rfl, rfl⟩
  | cons t resto ih =>
      obtain ⟨h1, h2, h3⟩ := superficie_inner_preserva p t ps tipo
      obtain ⟨g1, g2, g3⟩ := ih ((superficie_inner p t ps tipo).2.2)
      exact ⟨g1.trans h1, g2.trans h2, g3.trans h3⟩

lemma superficie_inner_fst (p : Params) (t : ℝ) (ps : List ℝ) (tipo : TipoOpcao) :
    (superficie_inner p t ps tipo).1 =
      ps.map (fun s => precoPorTipo tipo
        ⟨s, p.preco_strike, t, p.taxa_juros, p.volatilidade⟩) := by
  induction ps generalizing p with
  | nil => rfl
  | cons s resto ih =>
      simp only [superficie_inner, List.map_cons, List.cons.injEq, true_and]
      exact ih { p with preco_ativo := s, tempo_maturidade := t }

lemma superficie_outer_fst (p : Params) (tempos ps : List ℝ) (tipo : TipoOpcao) :
    (superficie_outer p tempos ps tipo).1 =
      tempos.map (fun t => ps.map (fun s => precoPorTipo tipo
        ⟨s, p.preco_strike, t, p.taxa_juros, p.volatilidade⟩)) := by
  induction tempos generalizing p with
  | nil => rfl
  | cons t resto ih =>
      simp only [superficie_outer, List.map_cons, List.cons.injEq]
      refine ⟨superficie_inner_fst p t ps tipo, ?_⟩
      obtain ⟨h1, h2, h3⟩ := superficie_inner_preserva p t ps tipo
      rw [ih ((superficie_inner p t ps tipo).2.2), h1, h2, h3]

lemma configurar_isSome_iff (m : ModeloInit) (S K T r sigma : ℝ) :
    (configurar_parametros m S K T r sigma).2.isSome = true ↔
      (S ≤ 0 ∨ K ≤ 0 ∨ T ≤ 0 ∨ sigma ≤ 0) := by
  unfold configurar_parametros
  split_ifs with h1 h2 h3 h4 <;> simp_all

lemma configurar_fst (m : ModeloInit) (S K T r sigma : ℝ) :
    (configurar_parametros m S K T r sigma).1 =
      ⟨some S, some K, some T, some r, some sigma⟩ := by
  unfold configurar_parametros
  split_ifs <;> rfl

lemma reduce_mean_sq_nonneg {α : Type} (f : α → ℝ) (l : List α) :
    0 ≤ reduce_mean (l.map (fun a => (f a) ^ 2)) := by
  unfold reduce_mean
  refine div_nonneg (List.sum_nonneg ?_) (Nat.cast_nonneg _)
  intro x hx
  obtain ⟨a, _, rfl⟩ := List.mem_map.mp hx
  positivity

lemma softplus_pos (x : ℝ) : 0 < softplus x := by
  unfold softplus
  exact Real.log_pos (by linarith [Real.exp_pos x])

lemma modelo_forward_pos (ocultas : List (List (List ℝ) × List ℝ))
    (pesos_saida : List ℝ) (vies_saida s t : ℝ) :
    0 < modelo_forward ocultas pesos_saida vies_saida s t :=
  softplus_pos _

lemma foldl_epoca_modelo {M : Type} (passo : DadosTreinamento → M → M × ℝ × ℝ × ℝ × ℝ)
    (dados : DadosTreinamento) (l : List ℕ) (st : EstadoTreino M) :
    (l.foldl (epoca_treino passo dados) st).modelo =
      (fun m => (passo dados m).1)^[l.length] st.modelo := by
  induction l generalizing st with
  | nil => rfl
  | cons a l ih =>
      rw [List.foldl_cons, ih, List.length_cons, Function.iterate_succ_apply]
      congr 1
      unfold epoca_treino
      split_ifs <;> rfl

/-! ## Derivatives of the pricing functions -/

/-- The classical identity `S·φ(d1) = K·e^{−rT}·φ(d2)` behind the Black-Scholes
greeks, for the embedded `d1`, `d2`. -/
lemma identidade_chave (S K T r sigma : ℝ) (hS : 0 < S) (hK : 0 < K)
    (hT : 0 < T) (hsig : sigma ≠ 0) :
    S * norm_pdf ((Real.log (S / K) + (r + 0.5 * sigma ^ 2) * T) /
        (sigma * Real.sqrt T)) =
      K * Real.exp (-(r * T)) *
        norm_pdf ((Real.log (S / K) + (r + 0.5 * sigma ^ 2) * T) /
            (sigma * Real.sqrt T) - sigma * Real.sqrt T) := by
  have hT' : (0:ℝ) < Real.sqrt T := Real.sqrt_pos.mpr hT
  have hu : sigma * Real.sqrt T ≠ 0 := mul_ne_zero hsig (ne_of_gt hT')
  have hu2 : (sigma * Real.sqrt T) ^ 2 = sigma ^ 2 * T := by
    rw [mul_pow, Real.sq_sqrt hT.le]
  have hd1u : (Real.log (S / K) + (r + 0.5 * sigma ^ 2) * T) /
        (sigma * Real.sqrt T) * (sigma * Real.sqrt T) =
      Real.log (S / K) + (r + 0.5 * sigma ^ 2) * T := div_mul_cancel₀ _ hu
  have hlog : Real.log (S / K) = Real.log S - Real.log K :=
    Real.log_div (ne_of_gt hS) (ne_of_gt hK)
  unfold norm_pdf
  set d1 := (Real.log (S / K) + (r + 0.5 * sigma ^ 2) * T) / (sigma * Real.sqrt T)
    with hd1_def
  set u := sigma * Real.sqrt T with hu_def
  have key : S * Real.exp (-d1 ^ 2 / 2) =
      K * Real.exp (-(r * T)) * Real.exp (-(d1 - u) ^ 2 / 2) := by
    rw [show S * Real.exp (-d1 ^ 2 / 2) = Real.exp (Real.log S + -d1 ^ 2 / 2) by
        rw [Real.exp_add, Real.exp_log hS]]
    rw [show K * Real.exp (-(r * T)) * Real.exp (-(d1 - u) ^ 2 / 2) =
        Real.exp (Real.log K + -(r * T) + -(d1 - u) ^ 2 / 2) by
        rw [Real.exp_add, Real.exp_add, Real.exp_log hK]]
    rw [Real.exp_eq_exp]
    linear_combination (-1 : ℝ) * hd1u + (1/2 : ℝ) * hu2 - hlog
  linear_combination (Real.sqrt (2 * Real.pi))⁻¹ * key

/-- `d/dS log(S/K) = 1/S` for positive `S`, `K`. -/
lemma hasDerivAt_log_div (K : ℝ) (hK : 0 < K) (S : ℝ) (hS : 0 < S) :
    HasDerivAt (fun s : ℝ => Real.log (s / K)) S⁻¹ S := by
  have h1 : HasDerivAt (fun s : ℝ => Real.log s - Real.log K) S⁻¹ S :=
    (Real.hasDerivAt_log (ne_of_gt hS)).sub_const _
  refine h1.congr_of_eventuallyEq ?_
  filter_upwards [eventually_gt_nhds hS] with s hs
  rw [Real.log_div (ne_of_gt hs) (ne_of_gt hK)]

/-- The delta of the embedded call price: `d/dS call = Φ(d1)` on `S > 0`. -/
lemma hasDerivAt_call_S (K T r sigma : ℝ) (hK : 0 < K) (hT : 0 < T)
    (hsig : 0 < sigma) (S : ℝ) (hS : 0 < S) :
    HasDerivAt (fun s => calcular_preco_call ⟨s, K, T, r, sigma⟩)
      (norm_cdf ((Real.log (S / K) + (r + 0.5 * sigma ^ 2) * T) /
        (sigma * Real.sqrt T))) S := by
  have hT' : (0:ℝ) < Real.sqrt T := Real.sqrt_pos.mpr hT
  have hd1 : HasDerivAt (fun s : ℝ =>
      (Real.log (s / K) + (r + 0.5 * sigma ^ 2) * T) / (sigma * Real.sqrt T))
      (S⁻¹ / (sigma * Real.sqrt T)) S :=
    ((hasDerivAt_log_div K hK S hS).add_const _).div_const _
  have hd2 : HasDerivAt (fun s : ℝ =>
      (Real.log (s / K) + (r + 0.5 * sigma ^ 2) * T) / (sigma * Real.sqrt T) -
        sigma * Real.sqrt T)
      (S⁻¹ / (sigma * Real.sqrt T)) S := hd1.sub_const _
  have hcdf1 : HasDerivAt (fun s : ℝ =>
      norm_cdf ((Real.log (s / K) + (r + 0.5 * sigma ^ 2) * T) /
        (sigma * Real.sqrt T)))
      (norm_pdf ((Real.log (S / K) + (r + 0.5 * sigma ^ 2) * T) /
        (sigma * Real.sqrt T)) * (S⁻¹ / (sigma * Real.sqrt T))) S :=
    (hasDerivAt_norm_cdf _).comp S hd1
  have hcdf2 : HasDerivAt (fun s : ℝ =>
      norm_cdf ((Real.log (s / K) + (r + 0.5 * sigma ^ 2) * T) /
        (sigma * Real.sqrt T) - sigma * Real.sqrt T))
      (norm_pdf ((Real.log (S / K) + (r + 0.5 * sigma ^ 2) * T) /
        (sigma * Real.sqrt T) - sigma * Real.sqrt T) *
        (S⁻¹ / (sigma * Real.sqrt T))) S :=
    (hasDerivAt_norm_cdf _).comp S hd2
  have hid : HasDerivAt (fun s : ℝ => s) 1 S := hasDerivAt_id S
  have hprod := hid.mul hcdf1
  have hterm2 := hcdf2.const_mul (K * Real.exp (-(r * T)))
  have h := hprod.sub hterm2
  have hfun : (fun s => calcular_preco_call ⟨s, K, T, r, sigma⟩) =
      (fun s : ℝ => s * norm_cdf ((Real.log (s / K) + (r + 0.5 * sigma ^ 2) * T) /
          (sigma * Real.sqrt T)) -
        K * Real.exp (-(r * T)) *
          norm_cdf ((Real.log (s / K) + (r + 0.5 * sigma ^ 2) * T) /
            (sigma * Real.sqrt T) - sigma * Real.sqrt T)) := by
    funext s
    simp only [calcular_preco_call, calcular_d1_d2]
  rw [hfun]
  have hkey := identidade_chave S K T r sigma hS hK hT (ne_of_gt hsig)
  have hval : 1 * norm_cdf ((Real.log (S / K) + (r + 0.5 * sigma ^ 2) * T) /
        (sigma * Real.sqrt T)) +
      S * (norm_pdf ((Real.log (S / K) + (r + 0.5 * sigma ^ 2) * T) /
        (sigma * Real.sqrt T)) * (S⁻¹ / (sigma * Real.sqrt T))) -
      K * Real.exp (-(r * T)) *
        (norm_pdf ((Real.log (S / K) + (r + 0.5 * sigma ^ 2) * T) /
          (sigma * Real.sqrt T) - sigma * Real.sqrt T) *
          (S⁻¹ / (sigma * Real.sqrt T))) =
      norm_cdf ((Real.log (S / K) + (r + 0.5 * sigma ^ 2) * T) /
        (sigma * Real.sqrt T)) := by
    linear_combination (S⁻¹ / (sigma * Real.sqrt T)) * hkey
  rw [← hval]
  exact h

/-- The vega of the embedded call price:
`d/dσ call = S·φ(d1)·√T` on `σ > 0`. -/
lemma hasDerivAt_call_sigma (S K T r : ℝ) (hS : 0 < S) (hK : 0 < K)
    (hT : 0 < T) (sigma : ℝ) (hsig : 0 < sigma) :
    HasDerivAt (fun v => calcular_preco_call ⟨S, K, T, r, v⟩)
      (S * norm_pdf ((Real.log (S / K) + (r + 0.5 * sigma ^ 2) * T) /
        (sigma * Real.sqrt T)) * Real.sqrt T) sigma := by
  have hT' : (0:ℝ) < Real.sqrt T := Real.sqrt_pos.mpr hT
  have hden : HasDerivAt (fun v : ℝ => v * Real.sqrt T) (Real.sqrt T) sigma := by
    simpa using (hasDerivAt_id sigma).mul_const (Real.sqrt T)
  have hnum : HasDerivAt
      (fun v : ℝ => Real.log (S / K) + (r + 0.5 * v ^ 2) * T)
      (sigma * T) sigma := by
    have h1 : HasDerivAt (fun v : ℝ => v ^ 2) (2 * sigma) sigma := by
      simpa using hasDerivAt_pow 2 sigma
    have h2 : (fun v : ℝ => Real.log (S / K) + (r + 0.5 * v ^ 2) * T) =
        fun v : ℝ => 0.5 * T * v ^ 2 + (Real.log (S / K) + r * T) := by
      funext v
      ring
    rw [h2]
    have h3 := (h1.const_mul (0.5 * T)).add_const (Real.log (S / K) + r * T)
    convert h3 using 1
    ring
  have hdiv := hnum.div hden (ne_of_gt (mul_pos hsig hT'))
  have hd2 := hdiv.sub hden
  have hcdf1 := ((hasDerivAt_norm_cdf _).comp sigma hdiv).const_mul S
  have hcdf2 := ((hasDerivAt_norm_cdf _).comp sigma hd2).const_mul
    (K * Real.exp (-(r * T)))
  have h := hcdf1.sub hcdf2
  have hfun : (fun v => calcular_preco_call ⟨S, K, T, r, v⟩) =
      (fun v : ℝ => S * norm_cdf ((Real.log (S / K) + (r + 0.5 * v ^ 2) * T) /
          (v * Real.sqrt T)) -
        K * Real.exp (-(r * T)) *
          norm_cdf ((Real.log (S / K) + (r + 0.5 * v ^ 2) * T) /
            (v * Real.sqrt T) - v * Real.sqrt T)) := by
    funext v
    simp only [calcular_preco_call, calcular_d1_d2]
  rw [hfun]
  have hkey := identidade_chave S K T r sigma hS hK hT (ne_of_gt hsig)
  set Dv := (sigma * T * (sigma * Real.sqrt T) -
      (Real.log (S / K) + (r + 0.5 * sigma ^ 2) * T) * Real.sqrt T) /
      (sigma * Real.sqrt T) ^ 2 with hDv_def
  have hval : S * (norm_pdf ((Real.log (S / K) + (r + 0.5 * sigma ^ 2) * T) /
        (sigma * Real.sqrt T)) * Dv) -
      K * Real.exp (-(r * T)) *
        (norm_pdf ((Real.log (S / K) + (r + 0.5 * sigma ^ 2) * T) /
          (sigma * Real.sqrt T) - sigma * Real.sqrt T) * (Dv - Real.sqrt T)) =
      S * norm_pdf ((Real.log (S / K) + (r + 0.5 * sigma ^ 2) * T) /
        (sigma * Real.sqrt T)) * Real.sqrt T := by
    linear_combination (Dv - Real.sqrt T) * hkey
  rw [← hval]
  exact h

/-- Strict monotonicity on `(0, ∞)` from a positive derivative there. -/
lemma strictMonoOn_Ioi_de_derivada (f g : ℝ → ℝ)
    (hf : ∀ x ∈ Ioi (0:ℝ), HasDerivAt f (g x) x)
    (hg : ∀ x ∈ Ioi (0:ℝ), 0 < g x) : StrictMonoOn f (Ioi 0) := by
  have h1 : ∀ x ∈ interior (Ioi (0:ℝ)),
      HasDerivWithinAt f (g x) (interior (Ioi (0:ℝ))) x := by
    intro x hx
    rw [interior_Ioi] at hx
    exact (hf x hx).hasDerivWithinAt
  have h2 : ∀ x ∈ interior (Ioi (0:ℝ)), 0 < g x := by
    intro x hx
    rw [interior_Ioi] at hx
    exact hg x hx
  exact strictMonoOn_of_hasDerivWithinAt_pos (convex_Ioi 0)
    (fun x hx => (hf x hx).continuousAt.continuousWithinAt) h1 h2

lemma call_strictMonoOn_S (K T r sigma : ℝ) (hK : 0 < K) (hT : 0 < T)
    (hsig : 0 < sigma) :
    StrictMonoOn (fun s => calcular_preco_call ⟨s, K, T, r, sigma⟩) (Ioi 0) :=
  strictMonoOn_Ioi_de_derivada _
    (fun s => norm_cdf ((Real.log (s / K) + (r + 0.5 * sigma ^ 2) * T) /
      (sigma * Real.sqrt T)))
    (fun x hx => hasDerivAt_call_S K T r sigma hK hT hsig x hx)
    (fun x _ => norm_cdf_pos _)

lemma id_sub_call_strictMonoOn_S (K T r sigma : ℝ) (hK : 0 < K) (hT : 0 < T)
    (hsig : 0 < sigma) :
    StrictMonoOn (fun s => s - calcular_preco_call ⟨s, K, T, r, sigma⟩)
      (Ioi 0) :=
  strictMonoOn_Ioi_de_derivada _
    (fun s => 1 - norm_cdf ((Real.log (s / K) + (r + 0.5 * sigma ^ 2) * T) /
      (sigma * Real.sqrt T)))
    (fun x hx => (hasDerivAt_id x).sub (hasDerivAt_call_S K T r sigma hK hT hsig x hx))
    (fun x _ => by linarith [norm_cdf_lt_one ((Real.log (x / K) +
      (r + 0.5 * sigma ^ 2) * T) / (sigma * Real.sqrt T))])

lemma call_strictMonoOn_sigma (S K T r : ℝ) (hS : 0 < S) (hK : 0 < K)
    (hT : 0 < T) :
    StrictMonoOn (fun v => calcular_preco_call ⟨S, K, T, r, v⟩) (Ioi 0) :=
  strictMonoOn_Ioi_de_derivada _
    (fun v => S * norm_pdf ((Real.log (S / K) + (r + 0.5 * v ^ 2) * T) /
      (v * Real.sqrt T)) * Real.sqrt T)
    (fun v hv => hasDerivAt_call_sigma S K T r hS hK hT v hv)
    (fun v _ => mul_pos (mul_pos hS (norm_pdf_pos _)) (Real.sqrt_pos.mpr hT))

/-- The put price in terms of the call price, by exact parity. -/
lemma put_em_termos_call (p : Params) :
    calcular_preco_put p = calcular_preco_call p - p.preco_ativo +
      p.preco_strike * Real.exp (-(p.taxa_juros * p.tempo_maturidade)) := by
  linarith [paridade_exata p]

/-! ## Claim theorems -/

/-- C1: for every parameter tuple accepted by `configurar_parametros`
(`S, K, T, σ > 0`, `r` arbitrary), the put-call-parity residual returned by
`validar_paridade_put_call` is exactly zero in real arithmetic, hence below
the `1e-10` tolerance. -/
theorem C1_paridade_put_call (p : Params) (hS : 0 < p.preco_ativo)
    (hK : 0 < p.preco_strike) (hT : 0 < p.tempo_maturidade)
    (hsig : 0 < p.volatilidade) :
    validar_paridade_put_call p = 0 ∧ validar_paridade_put_call p < 1e-10 := by
  have h0 : validar_paridade_put_call p = 0 := by
    unfold validar_paridade_put_call
    rw [paridade_exata p]
    simp
  exact ⟨h0, by rw [h0]; norm_num⟩

theorem C1_paridade_put_call_witness :
    validar_paridade_put_call ⟨100, 100, 1, 1/20, 1/5⟩ = 0 ∧
    validar_paridade_put_call ⟨100, 100, 1, 1/20, 1/5⟩ < 1e-10 :=
  C1_paridade_put_call ⟨100, 100, 1, 1/20, 1/5⟩ (by norm_num) (by norm_num)
    (by norm_num) (by norm_num)

/-- C2: for every configured parameter tuple with `S, K, T, σ > 0`,
`calcular_d1_d2` returns
`d1 = (ln(S/K) + (r + σ²/2)·T)/(σ·√T)` and `d2 = d1 − σ·√T`, and the two
pricing operations return `S·Φ(d1) − K·e^{−rT}·Φ(d2)` and
`K·e^{−rT}·Φ(−d2) − S·Φ(−d1)`, where `Φ` is the standard normal CDF. -/
theorem C2_formulas_precificacao (p : Params) (hS : 0 < p.preco_ativo)
    (hK : 0 < p.preco_strike) (hT : 0 < p.tempo_maturidade)
    (hsig : 0 < p.volatilidade) :
    calcular_d1_d2 p =
      ((Real.log (p.preco_ativo / p.preco_strike) +
          (p.taxa_juros + p.volatilidade ^ 2 / 2) * p.tempo_maturidade) /
          (p.volatilidade * Real.sqrt p.tempo_maturidade),
       (Real.log (p.preco_ativo / p.preco_strike) +
          (p.taxa_juros + p.volatilidade ^ 2 / 2) * p.tempo_maturidade) /
          (p.volatilidade * Real.sqrt p.tempo_maturidade) -
          p.volatilidade * Real.sqrt p.tempo_maturidade) ∧
    calcular_preco_call p =
      p.preco_ativo * norm_cdf (calcular_d1_d2 p).1 -
        p.preco_strike * Real.exp (-(p.taxa_juros * p.tempo_maturidade)) *
          norm_cdf (calcular_d1_d2 p).2 ∧
    calcular_preco_put p =
      p.preco_strike * Real.exp (-(p.taxa_juros * p.tempo_maturidade)) *
          norm_cdf (-(calcular_d1_d2 p).2) -
        p.preco_ativo * norm_cdf (-(calcular_d1_d2 p).1) := by
  refine ⟨?_, rfl, rfl⟩
  unfold calcular_d1_d2
  have h : (0.5 : ℝ) = 1 / 2 := by norm_num
  rw [Prod.mk.injEq]
  constructor <;> · rw [h]; ring_nf

theorem C2_formulas_precificacao_witness :
    calcular_d1_d2 ⟨100, 100, 1, 1/20, 1/5⟩ =
      ((Real.log ((100 : ℝ) / 100) + (1/20 + (1/5 : ℝ) ^ 2 / 2) * 1) /
          (1/5 * Real.sqrt 1),
       (Real.log ((100 : ℝ) / 100) + (1/20 + (1/5 : ℝ) ^ 2 / 2) * 1) /
          (1/5 * Real.sqrt 1) - 1/5 * Real.sqrt 1) ∧
    calcular_preco_call ⟨100, 100, 1, 1/20, 1/5⟩ =
      100 * norm_cdf (calcular_d1_d2 ⟨100, 100, 1, 1/20, 1/5⟩).1 -
        100 * Real.exp (-((1/20 : ℝ) * 1)) *
          norm_cdf (calcular_d1_d2 ⟨100, 100, 1, 1/20, 1/5⟩).2 ∧
    calcular_preco_put ⟨100, 100, 1, 1/20, 1/5⟩ =
      100 * Real.exp (-((1/20 : ℝ) * 1)) *
          norm_cdf (-(calcular_d1_d2 ⟨100, 100, 1, 1/20, 1/5⟩).2) -
        100 * norm_cdf (-(calcular_d1_d2 ⟨100, 100, 1, 1/20, 1/5⟩).1) :=
  C2_formulas_precificacao ⟨100, 100, 1, 1/20, 1/5⟩ (by norm_num) (by norm_num)
    (by norm_num) (by norm_num)

/-- C3: `configurar_parametros` raises (returns an error) if and only if at
least one of `S`, `K`, `T`, `σ` is `≤ 0`; the rate `r` is never checked, so
any real `r` together with positive `S, K, T, σ` configures successfully. -/
theorem C3_validacao_configurar (m : ModeloInit) (S K T r sigma : ℝ) :
    (configurar_parametros m S K T r sigma).2.isSome = true ↔
      (S ≤ 0 ∨ K ≤ 0 ∨ T ≤ 0 ∨ sigma ≤ 0) :=
  configurar_isSome_iff m S K T r sigma

/-- C4 (counterexample): the claim that `calcular_superficie_precos` never
mutates the shared instance state as scratch during its computation is false:
on the concrete call with configured spot `100` and spot grid `[50]`, the
instance state right after the first inner-loop assignment holds spot `50`,
not the pre-call spot `100`. -/
theorem C4_superficie_counterexample :
    ((calcular_superficie_precos ⟨100, 100, 1, 1/20, 1/5⟩ [1] [50]
        TipoOpcao.call).2.1.getD 0 ⟨0, 0, 0, 0, 0⟩).preco_ativo ≠
      (Params.mk 100 100 1 (1/20) (1/5)).preco_ativo := by
  norm_num [calcular_superficie_precos, superficie_outer, superficie_inner]

/-- C4 (amended): `calcular_superficie_precos` does mutate the instance's spot
and maturity fields as scratch during its computation, but it saves the two
fields first and restores them at the end, so the instance's fields are the
same before and after every call. -/
theorem C4_superficie_restaura (p : Params) (tempos precos : List ℝ)
    (tipo : TipoOpcao) :
    (calcular_superficie_precos p tempos precos tipo).2.2 = p := by
  obtain ⟨h1, h2, h3⟩ := superficie_outer_preserva p tempos precos tipo
  unfold calcular_superficie_precos
  ext
  · rfl
  · exact h1
  · rfl
  · exact h2
  · exact h3

/-- C5: the surface returned by `calcular_superficie_precos` is a
`tempos.length × precos.length` matrix whose entry `[i][j]` is the scalar
pricing operation for the same kind, evaluated at spot `precos[j]`, maturity
`tempos[i]`, and the configured `K`, `r`, `σ`; in particular the `1×1` surface
agrees with the scalar price. -/
theorem C5_superficie_escalar (p : Params) (tempos precos : List ℝ)
    (tipo : TipoOpcao) (i j : ℕ) (hi : i < tempos.length)
    (hj : j < precos.length) :
    (calcular_superficie_precos p tempos precos tipo).1.length = tempos.length ∧
    ((calcular_superficie_precos p tempos precos tipo).1.getD i []).length =
      precos.length ∧
    ((calcular_superficie_precos p tempos precos tipo).1.getD i []).getD j 0 =
      precoPorTipo tipo ⟨precos.getD j 0, p.preco_strike, tempos.getD i 0,
        p.taxa_juros, p.volatilidade⟩ := by
  have hm : (calcular_superficie_precos p tempos precos tipo).1 =
      tempos.map (fun t => precos.map (fun s => precoPorTipo tipo
        ⟨s, p.preco_strike, t, p.taxa_juros, p.volatilidade⟩)) :=
    superficie_outer_fst p tempos precos tipo
  have hil : i < (calcular_superficie_precos p tempos precos tipo).1.length := by
    rw [hm, List.length_map]; exact hi
  have hrow := list_getD_of_lt _ ([] : List ℝ) i hil
  refine ⟨by rw [hm, List.length_map], ?_, ?_⟩
  · rw [hrow]
    simp only [hm, List.getElem_map, List.length_map]
  · rw [hrow]
    have hjl : j < ((calcular_superficie_precos p tempos precos tipo).1[i]).length := by
      simp only [hm, List.getElem_map, List.length_map]; exact hj
    rw [list_getD_of_lt _ (0 : ℝ) j hjl]
    simp only [hm, List.getElem_map]
    rw [list_getD_of_lt _ (0 : ℝ) j hj, list_getD_of_lt _ (0 : ℝ) i hi]

theorem C5_superficie_escalar_witness :
    (calcular_superficie_precos ⟨100, 100, 1, 1/20, 1/5⟩ [1] [90]
      TipoOpcao.call).1.length = 1 ∧
    ((calcular_superficie_precos ⟨100, 100, 1, 1/20, 1/5⟩ [1] [90]
      TipoOpcao.call).1.getD 0 []).length = 1 ∧
    ((calcular_superficie_precos ⟨100, 100, 1, 1/20, 1/5⟩ [1] [90]
      TipoOpcao.call).1.getD 0 []).getD 0 0 =
      precoPorTipo TipoOpcao.call ⟨[(90 : ℝ)].getD 0 0, 100, [(1 : ℝ)].getD 0 0,
        1/20, 1/5⟩ := by
  have h := C5_superficie_escalar ⟨100, 100, 1, 1/20, 1/5⟩ [1] [90]
    TipoOpcao.call 0 0 (by simp) (by simp)
  simpa using h

/-- C6: with `K, T, σ > 0` fixed and any rate `r`, the call price is strictly
increasing and the put price strictly decreasing in the spot over `S > 0`;
with `S, K, T > 0` fixed, both prices are strictly increasing in the
volatility over `σ > 0`; and the vega is strictly positive. -/
theorem C6_monotonicidade (S K T r sigma S2 sigma2 : ℝ) (hS : 0 < S)
    (hK : 0 < K) (hT : 0 < T) (hsig : 0 < sigma) (hS2 : S < S2)
    (hsig2 : sigma < sigma2) :
    calcular_preco_call ⟨S, K, T, r, sigma⟩ <
      calcular_preco_call ⟨S2, K, T, r, sigma⟩ ∧
    calcular_preco_put ⟨S2, K, T, r, sigma⟩ <
      calcular_preco_put ⟨S, K, T, r, sigma⟩ ∧
    calcular_preco_call ⟨S, K, T, r, sigma⟩ <
      calcular_preco_call ⟨S, K, T, r, sigma2⟩ ∧
    calcular_preco_put ⟨S, K, T, r, sigma⟩ <
      calcular_preco_put ⟨S, K, T, r, sigma2⟩ ∧
    0 < calcular_vega ⟨S, K, T, r, sigma⟩ := by
  have hS2' : (0:ℝ) < S2 := lt_trans hS hS2
  have hsig2' : (0:ℝ) < sigma2 := lt_trans hsig hsig2
  have hcallS : calcular_preco_call ⟨S, K, T, r, sigma⟩ <
      calcular_preco_call ⟨S2, K, T, r, sigma⟩ :=
    call_strictMonoOn_S K T r sigma hK hT hsig (mem_Ioi.mpr hS)
      (mem_Ioi.mpr hS2') hS2
  have hcallsig : calcular_preco_call ⟨S, K, T, r, sigma⟩ <
      calcular_preco_call ⟨S, K, T, r, sigma2⟩ :=
    call_strictMonoOn_sigma S K T r hS hK hT (mem_Ioi.mpr hsig)
      (mem_Ioi.mpr hsig2') hsig2
  have hsub : S - calcular_preco_call ⟨S, K, T, r, sigma⟩ <
      S2 - calcular_preco_call ⟨S2, K, T, r, sigma⟩ :=
    id_sub_call_strictMonoOn_S K T r sigma hK hT hsig (mem_Ioi.mpr hS)
      (mem_Ioi.mpr hS2') hS2
  have e1 : calcular_preco_put ⟨S, K, T, r, sigma⟩ =
      calcular_preco_call ⟨S, K, T, r, sigma⟩ - S +
        K * Real.exp (-(r * T)) := put_em_termos_call ⟨S, K, T, r, sigma⟩
  have e2 : calcular_preco_put ⟨S2, K, T, r, sigma⟩ =
      calcular_preco_call ⟨S2, K, T, r, sigma⟩ - S2 +
        K * Real.exp (-(r * T)) := put_em_termos_call ⟨S2, K, T, r, sigma⟩
  have e3 : calcular_preco_put ⟨S, K, T, r, sigma2⟩ =
      calcular_preco_call ⟨S, K, T, r, sigma2⟩ - S +
        K * Real.exp (-(r * T)) := put_em_termos_call ⟨S, K, T, r, sigma2⟩
  have hvega : 0 < calcular_vega ⟨S, K, T, r, sigma⟩ := by
    have h : calcular_vega ⟨S, K, T, r, sigma⟩ =
        S * norm_pdf ((calcular_d1_d2 ⟨S, K, T, r, sigma⟩).1) *
          Real.sqrt T / 100 := rfl
    rw [h]
    exact div_pos (mul_pos (mul_pos hS (norm_pdf_pos _))
      (Real.sqrt_pos.mpr hT)) (by norm_num)
  exact ⟨hcallS, by linarith, hcallsig, by linarith, hvega⟩

theorem C6_monotonicidade_witness :
    calcular_preco_call ⟨100, 100, 1, 1/20, 1/5⟩ <
      calcular_preco_call ⟨110, 100, 1, 1/20, 1/5⟩ ∧
    calcular_preco_put ⟨110, 100, 1, 1/20, 1/5⟩ <
      calcular_preco_put ⟨100, 100, 1, 1/20, 1/5⟩ ∧
    calcular_preco_call ⟨100, 100, 1, 1/20, 1/5⟩ <
      calcular_preco_call ⟨100, 100, 1, 1/20, 3/10⟩ ∧
    calcular_preco_put ⟨100, 100, 1, 1/20, 1/5⟩ <
      calcular_preco_put ⟨100, 100, 1, 1/20, 3/10⟩ ∧
    0 < calcular_vega ⟨100, 100, 1, 1/20, 1/5⟩ :=
  C6_monotonicidade 100 100 1 (1/20) (1/5) 110 (3/10) (by norm_num)
    (by norm_num) (by norm_num) (by norm_num) (by norm_num) (by norm_num)

/-- C7: each loss component computed by `calcular_perda` — the PDE loss, the
terminal loss and the boundary loss (sum of the `S=0` and `S=S_max`
mean-square terms) — is non-negative, for every model (hence every weight
configuration) and every batch. -/
theorem C7_perdas_nao_negativas (modelo : ℝ → ℝ → ℝ) (r sigma : ℝ)
    (S_colocacao t_colocacao S_inicial t_inicial V_inicial
     S_contorno_inf t_contorno_inf V_contorno_inf
     S_contorno_sup t_contorno_sup V_contorno_sup : List ℝ) :
    0 ≤ (calcular_perda modelo r sigma S_colocacao t_colocacao S_inicial
        t_inicial V_inicial S_contorno_inf t_contorno_inf V_contorno_inf
        S_contorno_sup t_contorno_sup V_contorno_sup).2.1 ∧
    0 ≤ (calcular_perda modelo r sigma S_colocacao t_colocacao S_inicial
        t_inicial V_inicial S_contorno_inf t_contorno_inf V_contorno_inf
        S_contorno_sup t_contorno_sup V_contorno_sup).2.2.1 ∧
    0 ≤ (calcular_perda modelo r sigma S_colocacao t_colocacao S_inicial
        t_inicial V_inicial S_contorno_inf t_contorno_inf V_contorno_inf
        S_contorno_sup t_contorno_sup V_contorno_sup).2.2.2 := by
  unfold calcular_perda calcular_perda_pde
  refine ⟨reduce_mean_sq_nonneg _ _, reduce_mean_sq_nonneg _ _,
    add_nonneg (reduce_mean_sq_nonneg _ _) (reduce_mean_sq_nonneg _ _)⟩

/-- C8: `treinar` samples the training data exactly once before the loop and
then performs exactly `epocas` optimizer steps, each against that same fixed
dataset, stopping only when the epoch count is exhausted: the final model
state is the `epocas`-fold iterate of one `passo_treinamento` step on the
dataset generated once from the parameters with `S_max = 4K`. -/
theorem C8_laco_treinamento {M : Type}
    (passo : DadosTreinamento → M → M × ℝ × ℝ × ℝ × ℝ)
    (uniforme : ℕ → ℝ → ℝ → ℕ → List ℝ) (K T r sigma : ℝ)
    (epocas N_colocacao N_borda : ℕ) (m0 : M) :
    (treinar passo uniforme K T r sigma epocas N_colocacao N_borda m0).modelo =
      (fun m => (passo (gerar_dados_treinamento uniforme K T r N_colocacao
        N_borda (4.0 * K)) m).1)^[epocas] m0 := by
  unfold treinar
  rw [foldl_epoca_modelo, List.length_range]

/-- C9: the value predicted by the neural approximator is strictly positive
(the final layer applies the strictly-positive `softplus` activation), so
every element of the array returned by `prever` is never negative, for every
weight configuration and every batch. -/
theorem C9_previsao_nao_negativa (ocultas : List (List (List ℝ) × List ℝ))
    (pesos_saida : List ℝ) (vies_saida s t : ℝ) (S ts : List ℝ) (i : ℕ) :
    0 < modelo_forward ocultas pesos_saida vies_saida s t ∧
    0 ≤ (prever ocultas pesos_saida vies_saida S ts).getD i 0 := by
  refine ⟨modelo_forward_pos ocultas pesos_saida vies_saida s t, ?_⟩
  have h : ∀ l : List (ℝ × ℝ),
      0 ≤ (l.map (fun q =>
        modelo_forward ocultas pesos_saida vies_saida q.1 q.2)).getD i 0 := by
    intro l
    rcases lt_or_le i (l.map (fun q =>
        modelo_forward ocultas pesos_saida vies_saida q.1 q.2)).length with h | h
    · rw [list_getD_of_lt _ _ _ h, List.getElem_map]
      exact (modelo_forward_pos _ _ _ _ _).le
    · rw [list_getD_of_le _ _ _ h]
  unfold prever
  exact h _

/-- C10 (implicit): `configurar_parametros` is not atomic on failure — it
assigns all five parameter fields before any validation runs, so whenever it
raises for an input with some of `S, K, T, σ ≤ 0`, the instance is left
holding the rejected values rather than its pre-call state. -/
theorem C10_configurar_nao_atomico (m : ModeloInit) (S K T r sigma : ℝ) :
    (configurar_parametros m S K T r sigma).1 =
      ⟨some S, some K, some T, some r, some sigma⟩ ∧
    ((S ≤ 0 ∨ K ≤ 0 ∨ T ≤ 0 ∨ sigma ≤ 0) →
      (configurar_parametros m S K T r sigma).2.isSome = true) :=
  ⟨configurar_fst m S K T r sigma,
    fun h => (configurar_isSome_iff m S K T r sigma).mpr h⟩

theorem C10_configurar_nao_atomico_witness :
    (configurar_parametros ⟨none, none, none, none, none⟩ (-1) 100 1 (1/20)
      (1/5)).1 = ⟨some (-1), some 100, some 1, some (1/20), some (1/5)⟩ ∧
    (configurar_parametros ⟨none, none, none, none, none⟩ (-1) 100 1 (1/20)
      (1/5)).2.isSome = true :=
  ⟨(C10_configurar_nao_atomico ⟨none, none, none, none, none⟩ (-1) 100 1
      (1/20) (1/5)).1,
   (C10_configurar_nao_atomico ⟨none, none, none, none, none⟩ (-1) 100 1
      (1/20) (1/5)).2 (Or.inl (by norm_num))⟩

end Calculadora
